import Mathlib

/-!
Verification of the `rejestr_pro` repair-shop API (`src/api.py`).

The service is a Flask application over a Supabase store with three tables
(`klienci`, `maszyny`, `naprawy`).  We shallowly embed the request handlers
as pure Lean functions: JSON data is modelled by the inductive type `Val`,
a decoded JSON object (a Python dict) by an association list `Row`, and the
remote store either by concrete table contents (for reads, whose semantics
are determined by the query the handler builds) or by explicit
result-oracle functions (for writes, whose outcome — success, zero rows,
or a raised error — the store chooses).  Python exceptions raised inside a
handler's `try` block are modelled by `Except`; every handler's
`except Exception` clause maps them to a 500 response, as in the source.
-/

/-- A decoded JSON value (the subset of Python values the handlers touch). -/
inductive Val where
  | null
  | bool (b : Bool)
  | int (n : Int)
  | str (s : String)
  | list (xs : List Val)
  | obj (fields : List (String × Val))

mutual

/-- Structural equality test on `Val` (nested, so written by hand). -/
def Val.beq : Val → Val → Bool
  | .null, .null => true
  | .bool a, .bool b => a == b
  | .int a, .int b => a == b
  | .str a, .str b => a == b
  | .list xs, .list ys => Val.beqList xs ys
  | .obj xs, .obj ys => Val.beqObj xs ys
  | _, _ => false

def Val.beqList : List Val → List Val → Bool
  | [], [] => true
  | x :: xs, y :: ys => Val.beq x y && Val.beqList xs ys
  | _, _ => false

def Val.beqObj : List (String × Val) → List (String × Val) → Bool
  | [], [] => true
  | (k1, v1) :: xs, (k2, v2) :: ys => k1 == k2 && Val.beq v1 v2 && Val.beqObj xs ys
  | _, _ => false

end

theorem Val.beq_iff_eq (a b : Val) : Val.beq a b = true ↔ a = b := by
  refine Val.beq.induct (fun a b => Val.beq a b = true ↔ a = b)
    (fun xs ys => Val.beqObj xs ys = true ↔ xs = ys)
    (fun xs ys => Val.beqList xs ys = true ↔ xs = ys)
    ?_ ?_ ?_ ?_ ?_ ?_ ?_ ?_ ?_ ?_ ?_ ?_ ?_ a b
  · simp [Val.beq]
  · intro a b; simp [Val.beq]
  · intro a b; simp [Val.beq]
  · intro a b; simp [Val.beq]
  · intro xs ys h; simp [Val.beq, h]
  · intro xs ys h; simp [Val.beq, h]
  · intro t x h1 h2 h3 h4 h5 h6
    cases t <;> cases x <;>
      first
      | exact (h1 rfl rfl).elim
      | exact (h2 _ _ rfl rfl).elim
      | exact (h3 _ _ rfl rfl).elim
      | exact (h4 _ _ rfl rfl).elim
      | exact (h5 _ _ rfl rfl).elim
      | exact (h6 _ _ rfl rfl).elim
      | simp [Val.beq]
  · simp [Val.beqList]
  · intro x xs y ys h1 h2; simp [Val.beqList, h1, h2]
  · intro t x h1 h2
    cases t <;> cases x <;>
      first
      | exact (h1 rfl rfl).elim
      | exact (h2 _ _ _ _ rfl rfl).elim
      | simp [Val.beqList]
  · simp [Val.beqObj]
  · intro k1 v1 xs k2 v2 ys h1 h2
    simp [Val.beqObj, h1, h2, and_assoc]
  · intro t x h1 h2
    cases t with
    | nil =>
      cases x with
      | nil => exact (h1 rfl rfl).elim
      | cons p ps => simp [Val.beqObj]
    | cons p ps =>
      cases x with
      | nil => cases p with | mk k v => simp [Val.beqObj]
      | cons q qs =>
        cases p with
        | mk k v => cases q with | mk k2 v2 => exact (h2 _ _ _ _ _ _ rfl rfl).elim

instance : DecidableEq Val := fun a b => decidable_of_iff _ (Val.beq_iff_eq a b)

/-- A decoded JSON object / Python dict, as an association list (keys unique,
insertion order preserved — Python dicts are ordered). -/
abbrev Row := List (String × Val)

/-- `d.get(k)` as an `Option`: the first binding of `k`, if any. -/
def dictGet (d : Row) (k : String) : Option Val :=
  (d.find? (fun p => p.1 == k)).map Prod.snd

/-- Python `d.get(k, default)`. -/
def pyGetD (d : Row) (k : String) (v : Val) : Val :=
  (dictGet d k).getD v

/-- Python `d.get(k)` (default `None`). -/
def pyGet (d : Row) (k : String) : Val :=
  pyGetD d k Val.null

/-- Python `k in d`. -/
def hasKey (d : Row) (k : String) : Bool :=
  (dictGet d k).isSome

/-- Python truthiness of a decoded JSON value. -/
def truthy : Val → Bool
  | .null => false
  | .bool b => b
  | .int n => n != 0
  | .str s => !s.isEmpty
  | .list xs => !xs.isEmpty
  | .obj fs => !fs.isEmpty

/-- An HTTP response: status code and JSON body. -/
structure HttpResp where
  status : Nat
  body : Val
deriving DecidableEq

/-- `jsonify` of an object with a 200 status. -/
def ok200 (fields : List (String × Val)) : HttpResp :=
  HttpResp.mk 200 (Val.obj fields)

/-- An error response `jsonify (error := msg), code`. -/
def errResp (code : Nat) (msg : String) : HttpResp :=
  HttpResp.mk code (Val.obj [("error", Val.str msg)])

/-- Python exceptions the handlers can raise themselves while formatting. -/
inductive PyErr where
  | keyError (k : String)
  | attributeError
deriving DecidableEq

/-- A coarse rendering of Python `str(e)` for raised exceptions (the exact
message text is interpreter detail; no property below depends on it). -/
def pyErrMsg : PyErr → String
  | .keyError k => "KeyError: " ++ k
  | .attributeError => "AttributeError"

/-- Errors raised by the Supabase client on a write, as seen through
`except Exception as e`: either a unique-constraint violation or any other
store fault, each carrying its message. -/
inductive StoreErr where
  | uniqueViolation (msg : String)
  | otherErr (msg : String)
deriving DecidableEq

/-- `str(e)` for a store error (the carried message). -/
def StoreErr.msg : StoreErr → String
  | .uniqueViolation m => m
  | .otherErr m => m

/-!
### Entity normalizer — `_formatuj_naprawe` (src/api.py lines 60-80)

`maszyna_dane = n.get("maszyny", {})`, unwrapped one level when it is a
non-empty list; then a dict literal is built whose values are evaluated
left to right, so `n["id"]` and `n["klient_id"]` (KeyError on absence) are
evaluated before `maszyna_dane.get("marka")` (AttributeError when
`maszyna_dane` is not a dict), which in turn precedes `n["status"]` and
`n["data_przyjecia"]`.
-/

/-- The unwrap step: a non-empty list is replaced by its first element. -/
def unwrapMaszyny : Val → Val
  | .list (x :: _) => x
  | v => v

/-- The machine data `_formatuj_naprawe` reads its brand/class from. -/
def maszynaDaneOf (n : Row) : Val :=
  unwrapMaszyny (pyGetD n "maszyny" (Val.obj []))

/-- Python `v.get(k)` where `v` should be a dict: `AttributeError` when it
is any non-dict value, `None` when the key is absent. -/
def attrGet (v : Val) (k : String) : Except PyErr Val :=
  match v with
  | .obj fs => .ok (pyGet fs k)
  | _ => .error PyErr.attributeError

/-- Python `n[k]` on a dict: `KeyError` when the key is absent. -/
def subscript (n : Row) (k : String) : Except PyErr Val :=
  match dictGet n k with
  | some v => .ok v
  | none => .error (PyErr.keyError k)

/-- `_formatuj_naprawe`, with the source's evaluation order made explicit. -/
def formatujNaprawe (n : Row) : Except PyErr Row :=
  let maszynaDane := maszynaDaneOf n
  match subscript n "id" with
  | .error e => .error e
  | .ok vid =>
    match subscript n "klient_id" with
    | .error e => .error e
    | .ok vklient =>
      match attrGet maszynaDane "marka" with
      | .error e => .error e
      | .ok vmarka =>
        match attrGet maszynaDane "klasa" with
        | .error e => .error e
        | .ok vklasa =>
          match subscript n "status" with
          | .error e => .error e
          | .ok vstatus =>
            match subscript n "data_przyjecia" with
            | .error e => .error e
            | .ok vdata =>
              .ok [("id", vid),
                   ("klient_id", vklient),
                   ("marka", vmarka),
                   ("klasa", vklasa),
                   ("ns", pyGet n "maszyna_ns"),
                   ("status", vstatus),
                   ("data_przyjecia", vdata),
                   ("data_zakonczenia", pyGet n "data_zakonczenia"),
                   ("opis_usterki", pyGet n "opis_usterki"),
                   ("opis_naprawy", pyGet n "opis_naprawy"),
                   ("rozliczone", pyGetD n "rozliczone" (Val.bool false))]

/-!
### Repair list — `get_naprawy` (GET /naprawy, src/api.py lines 82-102)

The handler selects `*, maszyny!naprawy_maszyna_ns_fkey(ns, klasa, marka)`
ordered by descending id, formats every row, and never reads
`request.args`; its `args` parameter below is the decoded query string.
-/

/-- Supabase column projection: `select(c1, c2, ...)` (a selected column is
present in the result, `null` when the row has no value for it). -/
def projectCols (cols : List String) (r : Row) : Row :=
  cols.map (fun c => (c, pyGet r c))

/-- The store's foreign-key join for the `naprawy` select: the related
machine row (matched on `ns = maszyna_ns`), projected to
`(ns, klasa, marka)` and nested as an object under `"maszyny"`, or `null`
when no machine matches. -/
def naprawaJoinRow (maszyny : List Row) (n : Row) : Row :=
  n ++ [("maszyny",
    match maszyny.filter (fun m => pyGet m "ns" == pyGet n "maszyna_ns") with
    | m :: _ => Val.obj (projectCols ["ns", "klasa", "marka"] m)
    | [] => Val.null)]

/-- Insertion into a list sorted by the boolean comparator `le`. -/
def insertLe {α : Type} (le : α → α → Bool) (x : α) : List α → List α
  | [] => [x]
  | y :: ys => if le x y then x :: y :: ys else y :: insertLe le x ys

/-- Insertion sort by the boolean comparator `le`. -/
def sortLe {α : Type} (le : α → α → Bool) (l : List α) : List α :=
  l.foldr (insertLe le) []

/-- The integer id of a stored repair row. -/
def rowIdInt (r : Row) : Int :=
  match pyGet r "id" with
  | .int n => n
  | _ => 0

/-- The store's `order("id", desc=True)`. -/
def orderDescId (rows : List Row) : List Row :=
  sortLe (fun a b => decide (rowIdInt b ≤ rowIdInt a)) rows

/-- The Python list comprehension `[_formatuj_naprawe(n) for n in naprawy]`:
left to right, the first raised exception propagates. -/
def formatList : List Row → Except PyErr (List Row)
  | [] => .ok []
  | r :: rs =>
    match formatujNaprawe r with
    | .error e => .error e
    | .ok x =>
      match formatList rs with
      | .error e => .error e
      | .ok xs => .ok (x :: xs)

/-- `get_naprawy`: `args` is the request query string, `naprawy`/`maszyny`
are the store tables.  The handler reads no query parameter. -/
def getNaprawy (args : List (String × String)) (naprawy maszyny : List Row) : HttpResp :=
  let rows := (orderDescId naprawy).map (naprawaJoinRow maszyny)
  match formatList rows with
  | .ok wynik => HttpResp.mk 200 (Val.list (wynik.map Val.obj))
  | .error e => errResp 500 ("Błąd serwera: " ++ pyErrMsg e)

/-!
### Repair create — `dodaj_naprawe` (POST /naprawy, src/api.py lines 130-161)
-/

/-- The four required fields of a repair-create payload. -/
def wymaganePola : List String :=
  ["klient_id", "maszyna_ns", "data_przyjecia", "status"]

/-- `dane_do_wstawienia`: the row sent to the store.  The source subscripts
`dane[k]` for the required keys; the handler builds this dict only after
validating that those keys are present with truthy values, under which
`dane[k]` equals `dane.get(k)`. -/
def naprawaInsertData (dane : Row) : Row :=
  [("klient_id", pyGet dane "klient_id"),
   ("maszyna_ns", pyGet dane "maszyna_ns"),
   ("data_przyjecia", pyGet dane "data_przyjecia"),
   ("data_zakonczenia", pyGet dane "data_zakonczenia"),
   ("status", pyGet dane "status"),
   ("opis_usterki", pyGet dane "opis_usterki"),
   ("opis_naprawy", pyGet dane "opis_naprawy"),
   ("posrednik_id", pyGet dane "posrednik_id"),
   ("rozliczone", pyGetD dane "rozliczone" (Val.bool false))]

/-- `dodaj_naprawe`: `ins` is the store's response to
`table("naprawy").insert(...)` — the inserted rows, or a raised error. -/
def dodajNaprawe (dane : Row) (ins : Row → Except StoreErr (List Row)) : HttpResp :=
  if !(wymaganePola.all (fun p => truthy (pyGet dane p))) then
    errResp 400 "Brak wymaganych danych: klient_id, maszyna_ns, data_przyjecia, status"
  else
    match ins (naprawaInsertData dane) with
    | .error e => errResp 500 ("Błąd serwera: " ++ e.msg)
    | .ok [] =>
      HttpResp.mk 500 (Val.obj [("sukces", Val.bool false),
        ("error", Val.str "Brak danych zwrotnych po wstawieniu")])
    | .ok (r :: _) => ok200 [("sukces", Val.bool true), ("id", pyGet r "id")]

/-!
### Repair delete — `delete_naprawa` (DELETE /naprawy/id, src/api.py lines 163-175)
-/

/-- The rows a Supabase `delete().eq("id", naprawa_id)` removes and returns:
exactly the rows of the table whose id matches. -/
def deleteFromNaprawy (naprawy : List Row) (naprawaId : Int) : List Row :=
  naprawy.filter (fun r => pyGet r "id" == Val.int naprawaId)

/-- `delete_naprawa`: `del1` is the store's response to the delete call. -/
def deleteNaprawa (naprawaId : Int) (del1 : Int → Except StoreErr (List Row)) : HttpResp :=
  match del1 naprawaId with
  | .error e => errResp 500 e.msg
  | .ok [] => errResp 404 "Nie znaleziono naprawy"
  | .ok (_ :: _) =>
    HttpResp.mk 200 (Val.obj [("message",
      Val.str ("Usunięto naprawę o ID: " ++ toString naprawaId))])

/-!
### Repair update — `update_naprawa` (PUT /naprawy/id, src/api.py lines 177-213)
-/

/-- The recognized update fields, in the order the source tests them. -/
def uznanePolaNaprawy : List String :=
  ["status", "data_zakonczenia", "opis_usterki", "opis_naprawy",
   "posrednik_id", "rozliczone", "klient_id", "maszyna_ns"]

/-- `pola_do_aktualizacji`: for each recognized key present in the payload
(`if k in data`), its payload value (`data[k]`) is copied. -/
def polaDoAktualizacji (data : Row) : Row :=
  uznanePolaNaprawy.filterMap (fun k => (dictGet data k).map (fun v => (k, v)))

/-- `update_naprawa`: `upd` is the store's response to
`table("naprawy").update(pola).eq("id", naprawa_id)`. -/
def updateNaprawa (naprawaId : Int) (data : Row)
    (upd : Row → Int → Except StoreErr (List Row)) : HttpResp :=
  let pola := polaDoAktualizacji data
  if pola.isEmpty then errResp 400 "Brak danych do aktualizacji"
  else
    match upd pola naprawaId with
    | .error e => errResp 500 ("Błąd serwera: " ++ e.msg)
    | .ok [] => errResp 404 "Nie znaleziono naprawy"
    | .ok (_ :: _) =>
      HttpResp.mk 200 (Val.obj [("message",
        Val.str ("Zaktualizowano naprawę o ID: " ++ toString naprawaId))])

/-- A SQL `UPDATE ... SET k = v` effect on one stored row: each field of
`pola` overwrites the row's binding for that key (added when absent). -/
def setField (r : Row) (k : String) (v : Val) : Row :=
  if r.any (fun p => p.1 == k) then
    r.map (fun p => if p.1 == k then (p.1, v) else p)
  else r ++ [(k, v)]

/-- Apply every field of an update set to a row, left to right. -/
def setFields (r : Row) (pola : Row) : Row :=
  pola.foldl (fun acc p => setField acc p.1 p.2) r

/-- The store's `update(pola).eq("id", naprawa_id)` effect on the table:
matching rows get the update set applied, all other rows are untouched. -/
def updateTableById (tbl : List Row) (pola : Row) (naprawaId : Int) : List Row :=
  tbl.map (fun r => if pyGet r "id" == Val.int naprawaId then setFields r pola else r)

/-!
### Machine find-or-create — `dodaj_lub_pobierz_maszyne`
(POST /maszyny, src/api.py lines 245-290)
-/

/-- Supabase `table(t).select(cols).eq(col, v).limit(lim)`: the rows whose
`col` equals `v`, projected to `cols`, truncated to `lim`. -/
def selectEqLimit (tbl : List Row) (cols : List String) (col : String)
    (v : Val) (lim : Nat) : List Row :=
  ((tbl.filter (fun r => pyGet r col == v)).map (projectCols cols)).take lim

/-- The machine payload: always all four keys, `None` for an omitted one. -/
def maszynaPayload (data : Row) : Row :=
  [("ns", pyGet data "ns"),
   ("marka", pyGet data "marka"),
   ("klasa", pyGet data "klasa"),
   ("opis", pyGet data "opis")]

/-- `dodaj_lub_pobierz_maszyne`: `maszyny` is the store table the lookup
runs against; `upd`/`ins` are the store's responses to the
`update(payload).eq("ns", ns)` and `insert(payload)` calls. -/
def dodajLubPobierzMaszyne (data : Row) (maszyny : List Row)
    (upd : Row → Val → Except StoreErr (List Row))
    (ins : Row → Except StoreErr (List Row)) : HttpResp :=
  let ns := pyGet data "ns"
  if !truthy ns then errResp 400 "Brak wymaganego pola ns (numer seryjny)"
  else
    let existing := selectEqLimit maszyny ["ns"] "ns" ns 1
    let payload := maszynaPayload data
    match existing with
    | e :: _ =>
      match upd payload ns with
      | .error err => errResp 500 ("Błąd serwera: " ++ err.msg)
      | .ok [] => errResp 500 "Brak danych zwrotnych po aktualizacji maszyny"
      | .ok (_ :: _) =>
        match dictGet e "ns" with
        | some w => ok200 [("ns", w)]
        | none => errResp 500 ("Błąd serwera: " ++ pyErrMsg (PyErr.keyError "ns"))
    | [] =>
      match ins payload with
      | .error err => errResp 500 ("Błąd serwera: " ++ err.msg)
      | .ok [] => errResp 500 "Brak danych zwrotnych po wstawieniu maszyny"
      | .ok (i :: _) =>
        match dictGet i "ns" with
        | some w => ok200 [("ns", w)]
        | none => errResp 500 ("Błąd serwera: " ++ pyErrMsg (PyErr.keyError "ns"))

/-!
### Client find-or-create — `dodaj_lub_pobierz_klienta`
(POST /klienci, src/api.py lines 332-395)
-/

/-- `insert_data` for a new client. -/
def klientInsertData (data : Row) : Row :=
  [("nazwa", pyGet data "nazwa"),
   ("logo", pyGet data "logo"),
   ("adres", pyGet data "adres"),
   ("osoba", pyGet data "osoba"),
   ("telefon", pyGet data "telefon")]

/-- The identifying lookup: by `klient_id`, else by `logo`, else by
`nazwa`; `none` when no identifying datum is truthy (the 400 branch). -/
def klienciLookup (data : Row) (klienci : List Row) : Option (List Row) :=
  if truthy (pyGet data "klient_id") then
    some (selectEqLimit klienci ["klient_id"] "klient_id" (pyGet data "klient_id") 1)
  else if truthy (pyGet data "logo") then
    some (selectEqLimit klienci ["klient_id"] "logo" (pyGet data "logo") 1)
  else if truthy (pyGet data "nazwa") then
    some (selectEqLimit klienci ["klient_id"] "nazwa" (pyGet data "nazwa") 1)
  else none

/-- `dodaj_lub_pobierz_klienta`: `klienci` is the store table the lookup
runs against; `ins` is the store's response to `insert(insert_data)`. -/
def dodajLubPobierzKlienta (data : Row) (klienci : List Row)
    (ins : Row → Except StoreErr (List Row)) : HttpResp :=
  match klienciLookup data klienci with
  | none => errResp 400 "Brak danych do identyfikacji klienta (nazwa, logo lub klient_id)"
  | some (e :: _) =>
    match dictGet e "klient_id" with
    | some w => ok200 [("klient_id", w)]
    | none => errResp 500 ("Błąd serwera: " ++ pyErrMsg (PyErr.keyError "klient_id"))
  | some [] =>
    if !(truthy (pyGet data "nazwa") || truthy (pyGet data "logo")) then
      errResp 400 "Brak wymaganych danych do utworzenia nowego klienta (nazwa lub logo)"
    else
      match ins (klientInsertData data) with
      | .error err => errResp 500 ("Błąd serwera: " ++ err.msg)
      | .ok [] => errResp 500 "Brak danych zwrotnych po wstawieniu klienta"
      | .ok (i :: _) =>
        match dictGet i "klient_id" with
        | some w => ok200 [("klient_id", w)]
        | none => errResp 500 ("Błąd serwera: " ++ pyErrMsg (PyErr.keyError "klient_id"))

/-!
### Lookups — `get_slowniki` (GET /slowniki, src/api.py lines 401-426)

Four of the five lists go through `sorted(list(set(...)))`; the serial
numbers are returned verbatim (`[row["ns"] for row in ...]`).
-/

/-- Code-point comparison of strings (Python string ordering). -/
def charListLe : List Char → List Char → Bool
  | [], _ => true
  | _ :: _, [] => false
  | a :: as, b :: bs => if a == b then charListLe as bs else decide (a < b)

/-- `a <= b` on strings. -/
def strLe (a b : String) : Bool :=
  charListLe a.toList b.toList

/-- A rank to totalize comparison across value shapes. -/
def valRank : Val → Nat
  | .null => 0
  | .bool _ => 1
  | .int _ => 2
  | .str _ => 3
  | .list _ => 4
  | .obj _ => 5

/-- Comparison used by `sorted` on column values.  The store columns being
sorted are text, so only the string case is exercised; the other cases
totalize the comparator so the model stays executable. -/
def valLe (a b : Val) : Bool :=
  match a, b with
  | .str x, .str y => strLe x y
  | .int x, .int y => decide (x ≤ y)
  | .bool x, .bool y => !x || y
  | a, b => decide (valRank a ≤ valRank b)

/-- Python `str(v)` for the scalar values a key column can hold (the
container cases are immaterial to every property below). -/
def pyStr : Val → String
  | .str s => s
  | .int n => toString n
  | .bool true => "True"
  | .bool false => "False"
  | .null => "None"
  | .list _ => "list"
  | .obj _ => "dict"

/-- `sorted(list(set(xs)))` on column values. -/
def sortedSet (xs : List Val) : List Val :=
  sortLe valLe xs.dedup

/-- The `marki` list: truthy `marka` values of `maszyny`, deduplicated and
sorted. -/
def slownikiMarki (maszyny : List Row) : List Val :=
  sortedSet ((maszyny.map (fun r => pyGet r "marka")).filter truthy)

/-- The `klasy` list: truthy `klasa` values of `maszyny`, deduplicated and
sorted. -/
def slownikiKlasy (maszyny : List Row) : List Val :=
  sortedSet ((maszyny.map (fun r => pyGet r "klasa")).filter truthy)

/-- The `usterki` list: truthy `opis_usterki` values of `naprawy`,
deduplicated and sorted. -/
def slownikiUsterki (naprawy : List Row) : List Val :=
  sortedSet ((naprawy.map (fun r => pyGet r "opis_usterki")).filter truthy)

/-- The `klienci_id` list: non-null `klient_id` values of `klienci`,
stringified, deduplicated and sorted. -/
def slownikiKlienciId (klienci : List Row) : List String :=
  sortLe strLe
    ((((klienci.map (fun r => pyGet r "klient_id")).filter
        (fun v => !(v == Val.null))).map pyStr).dedup)

/-- The `numery_seryjne` list: the raw `ns` column of `maszyny`, verbatim —
no truthiness filter, no `set`, no `sorted`. -/
def slownikiNumerySeryjne (maszyny : List Row) : List Val :=
  maszyny.map (fun r => pyGet r "ns")

/-- `get_slowniki` over the three store tables. -/
def getSlowniki (maszyny naprawy klienci : List Row) : HttpResp :=
  ok200 [("marki", Val.list (slownikiMarki maszyny)),
         ("klasy", Val.list (slownikiKlasy maszyny)),
         ("usterki", Val.list (slownikiUsterki naprawy)),
         ("klienci_id", Val.list ((slownikiKlienciId klienci).map Val.str)),
         ("numery_seryjne", Val.list (slownikiNumerySeryjne maszyny))]

/-- Boolean prefix test on character lists. -/
def isPrefixB : List Char → List Char → Bool
  | [], _ => true
  | _ :: _, [] => false
  | a :: as, b :: bs => a == b && isPrefixB as bs

/-- Boolean contiguous-substring test on character lists. -/
def isInfixB (needle : List Char) : List Char → Bool
  | [] => isPrefixB needle []
  | b :: t => isPrefixB needle (b :: t) || isInfixB needle t

theorem isPrefixB_iff (n h : List Char) : isPrefixB n h = true ↔ n <+: h := by
  induction n generalizing h with
  | nil => simp [isPrefixB]
  | cons a as ih =>
    cases h with
    | nil => simp [isPrefixB]
    | cons b bs => simp [isPrefixB, ih, List.cons_prefix_cons, and_comm]

theorem isInfixB_iff (n h : List Char) : isInfixB n h = true ↔ n <:+: h := by
  induction h with
  | nil => simp [isInfixB, isPrefixB_iff]
  | cons b bs ih => simp [isInfixB, isPrefixB_iff, ih, List.infix_cons_iff]

/-- Lower-case a character list. -/
def lowerChars (l : List Char) : List Char :=
  l.map Char.toLower

/-- Case-insensitive substring containment — the reading of the brand
filter the specification describes (`ilike %v%` over the joined brand). -/
def containsCI (hay needle : String) : Prop :=
  isInfixB (lowerChars needle.toList) (lowerChars hay.toList) = true

/-- `containsCI` is exactly case-insensitive substring occurrence. -/
theorem containsCI_iff (hay needle : String) :
    containsCI hay needle ↔ lowerChars needle.toList <:+: lowerChars hay.toList :=
  isInfixB_iff _ _

instance (hay needle : String) : Decidable (containsCI hay needle) :=
  inferInstanceAs (Decidable (isInfixB (lowerChars needle.toList) (lowerChars hay.toList) = true))

instance instDecEqExcept {ε α : Type} [DecidableEq ε] [DecidableEq α] :
    DecidableEq (Except ε α) := fun a b =>
  match a, b with
  | .ok x, .ok y =>
    if h : x = y then isTrue (by rw [h]) else isFalse (fun hc => h (Except.ok.inj hc))
  | .error x, .error y =>
    if h : x = y then isTrue (by rw [h]) else isFalse (fun hc => h (Except.error.inj hc))
  | .ok _, .error _ => isFalse (fun hc => Except.noConfusion hc)
  | .error _, .ok _ => isFalse (fun hc => Except.noConfusion hc)

/-!
### Supporting lemmas
-/

theorem insertLe_perm {α : Type} (le : α → α → Bool) (x : α) (l : List α) :
    List.Perm (insertLe le x l) (x :: l) := by
  induction l with
  | nil => exact List.Perm.refl _
  | cons y ys ih =>
    by_cases h : le x y = true
    · simp [insertLe, h]
    · simp only [insertLe, h, if_false]
      exact (ih.cons y).trans (List.Perm.swap x y ys)

theorem sortLe_perm {α : Type} (le : α → α → Bool) (l : List α) :
    List.Perm (sortLe le l) l := by
  induction l with
  | nil => exact List.Perm.refl _
  | cons x xs ih => exact (insertLe_perm le x (sortLe le xs)).trans (ih.cons x)

theorem formatList_ok_length (rows ys : List Row) (h : formatList rows = .ok ys) :
    ys.length = rows.length := by
  induction rows generalizing ys with
  | nil =>
    simp only [formatList] at h
    cases h
    rfl
  | cons r rs ih =>
    simp only [formatList] at h
    cases hf : formatujNaprawe r with
    | error e => rw [hf] at h; cases h
    | ok x =>
      rw [hf] at h
      cases hl : formatList rs with
      | error e => rw [hl] at h; cases h
      | ok xs =>
        rw [hl] at h
        cases h
        simp [ih xs hl]

theorem dictGet_filter (data : Row) (P : String × Val → Bool) (k : String)
    (hP : ∀ v, P (k, v) = true) :
    dictGet (data.filter P) k = dictGet data k := by
  induction data with
  | nil => rfl
  | cons p ps ih =>
    cases p with
    | mk k0 v0 =>
      by_cases hk : k0 = k
      · subst hk
        simp [dictGet, List.filter_cons, hP v0, List.find?]
      · have hne : (k0 == k) = false := by simp [hk]
        by_cases hPf : P (k0, v0) = true
        · simpa [dictGet, List.filter_cons, hPf, List.find?, hne] using ih
        · simp only [Bool.not_eq_true] at hPf
          simpa [dictGet, List.filter_cons, hPf, List.find?, hne] using ih

theorem dictGet_cons (p : String × Val) (ps : Row) (k : String) :
    dictGet (p :: ps) k = if p.1 == k then some p.2 else dictGet ps k := by
  by_cases h : (p.1 == k) = true
  · simp [dictGet, List.find?_cons_of_pos _ h, h]
  · simp [dictGet, List.find?_cons_of_neg _ h, h]

theorem dictGet_isSome_iff_any (r : Row) (k : String) :
    (dictGet r k).isSome = r.any (fun p => p.1 == k) := by
  induction r with
  | nil => rfl
  | cons p ps ih =>
    by_cases h : (p.1 == k) = true <;>
      simp [dictGet_cons, h, List.any_cons, ih]

theorem dictGet_eq_none_of_any_false (r : Row) (k : String)
    (h : r.any (fun p => p.1 == k) = false) : dictGet r k = none := by
  induction r with
  | nil => rfl
  | cons p ps ih =>
    simp only [List.any_cons, Bool.or_eq_false_iff] at h
    rw [dictGet_cons, if_neg (by simp [h.1]), ih h.2]

theorem dictGet_append_of_none (r1 r2 : Row) (k : String) (h : dictGet r1 k = none) :
    dictGet (r1 ++ r2) k = dictGet r2 k := by
  induction r1 with
  | nil => rfl
  | cons p ps ih =>
    rw [dictGet_cons] at h
    by_cases hb : (p.1 == k) = true
    · rw [if_pos hb] at h; cases h
    · rw [if_neg hb] at h
      rw [List.cons_append, dictGet_cons, if_neg hb, ih h]

theorem dictGet_append_of_some (r1 r2 : Row) (k : String) (v : Val)
    (h : dictGet r1 k = some v) : dictGet (r1 ++ r2) k = some v := by
  induction r1 with
  | nil => cases h
  | cons p ps ih =>
    rw [dictGet_cons] at h
    rw [List.cons_append, dictGet_cons]
    by_cases hb : (p.1 == k) = true
    · rw [if_pos hb] at h; rw [if_pos hb]; exact h
    · rw [if_neg hb] at h; rw [if_neg hb]; exact ih h

theorem dictGet_replace_same (r : Row) (k : String) (v : Val)
    (hmem : dictGet r k ≠ none) :
    dictGet (r.map (fun p => if p.1 == k then (p.1, v) else p)) k = some v := by
  induction r with
  | nil => simp [dictGet] at hmem
  | cons p ps ih =>
    by_cases h : (p.1 == k) = true
    · have e : p.1 = k := by simpa using h
      simp [List.map_cons, dictGet_cons, e]
    · have hf : (p.1 == k) = false := Bool.eq_false_iff.mpr h
      rw [dictGet_cons, if_neg h] at hmem
      rw [List.map_cons, dictGet_cons]
      have hfst : (if p.1 == k then (p.1, v) else p).1 = p.1 := by simp [hf]
      rw [hfst, if_neg h]
      exact ih hmem

theorem dictGet_replace_other (r : Row) (k k2 : String) (v : Val) (h : k2 ≠ k) :
    dictGet (r.map (fun p => if p.1 == k then (p.1, v) else p)) k2 = dictGet r k2 := by
  induction r with
  | nil => rfl
  | cons p ps ih =>
    rw [List.map_cons, dictGet_cons, dictGet_cons]
    have hfst : (if p.1 == k then (p.1, v) else p).1 = p.1 := by
      by_cases hb : (p.1 == k) = true <;> simp [hb]
    rw [hfst]
    by_cases hb2 : (p.1 == k2) = true
    · rw [if_pos hb2, if_pos hb2]
      have e2 : p.1 = k2 := by simpa using hb2
      have hbk : (p.1 == k) = false := by
        rw [e2]; exact beq_eq_false_iff_ne.mpr h
      simp [hbk]
    · rw [if_neg hb2, if_neg hb2, ih]

theorem dictGet_setField_same (r : Row) (k : String) (v : Val) :
    dictGet (setField r k v) k = some v := by
  unfold setField
  by_cases hany : r.any (fun p => p.1 == k) = true
  · rw [if_pos hany]
    apply dictGet_replace_same
    intro hc
    rw [← dictGet_isSome_iff_any, hc] at hany
    simp at hany
  · rw [if_neg hany]
    have hf : r.any (fun p => p.1 == k) = false := Bool.eq_false_iff.mpr hany
    rw [dictGet_append_of_none r [(k, v)] k (dictGet_eq_none_of_any_false r k hf)]
    simp [dictGet_cons]

theorem dictGet_setField_other (r : Row) (k k2 : String) (v : Val) (h : k2 ≠ k) :
    dictGet (setField r k v) k2 = dictGet r k2 := by
  unfold setField
  by_cases hany : r.any (fun p => p.1 == k) = true
  · rw [if_pos hany]
    exact dictGet_replace_other r k k2 v h
  · rw [if_neg hany]
    cases hr : dictGet r k2 with
    | some w => exact dictGet_append_of_some r [(k, v)] k2 w hr
    | none =>
      rw [dictGet_append_of_none r [(k, v)] k2 hr, dictGet_cons]
      have hne : (k == k2) = false := beq_eq_false_iff_ne.mpr (Ne.symm h)
      rw [if_neg (by simp [hne])]
      rfl

/-- A value is a mapping (Python dict). -/
def isObjVal : Val → Bool
  | .obj _ => true
  | _ => false

theorem subscript_some (n : Row) (k : String) (v : Val) (h : dictGet n k = some v) :
    subscript n k = .ok v := by
  unfold subscript
  rw [h]

theorem subscript_error (n : Row) (k : String) (h : dictGet n k = none) :
    subscript n k = .error (PyErr.keyError k) := by
  unfold subscript
  rw [h]

theorem subscript_ok_inv (n : Row) (k : String) (v : Val) (h : subscript n k = .ok v) :
    dictGet n k = some v := by
  unfold subscript at h
  cases hd : dictGet n k with
  | none => rw [hd] at h; cases h
  | some w => rw [hd] at h; cases h; rfl

theorem attrGet_error (v : Val) (k : String) (h : isObjVal v = false) :
    attrGet v k = .error PyErr.attributeError := by
  cases v <;> simp [isObjVal] at h ⊢ <;> rfl

theorem attrGet_ok_inv (v : Val) (k : String) (w : Val) (h : attrGet v k = .ok w) :
    ∃ fs, v = Val.obj fs ∧ w = pyGet fs k := by
  cases v with
  | obj fs =>
    simp [attrGet] at h
    exact ⟨fs, rfl, h.symm⟩
  | null => simp [attrGet] at h
  | bool b => simp [attrGet] at h
  | int m => simp [attrGet] at h
  | str s => simp [attrGet] at h
  | list xs => simp [attrGet] at h

theorem formatujNaprawe_keyError_id (n : Row) (h : dictGet n "id" = none) :
    formatujNaprawe n = .error (PyErr.keyError "id") := by
  simp [formatujNaprawe, subscript_error n "id" h]

theorem formatujNaprawe_keyError_klient (n : Row) (vid : Val)
    (h1 : dictGet n "id" = some vid) (h : dictGet n "klient_id" = none) :
    formatujNaprawe n = .error (PyErr.keyError "klient_id") := by
  simp [formatujNaprawe, subscript_some n "id" vid h1,
    subscript_error n "klient_id" h]

theorem formatujNaprawe_attrError (n : Row) (vid vkl : Val)
    (h1 : dictGet n "id" = some vid) (h2 : dictGet n "klient_id" = some vkl)
    (h : isObjVal (maszynaDaneOf n) = false) :
    formatujNaprawe n = .error PyErr.attributeError := by
  simp [formatujNaprawe, subscript_some n "id" vid h1,
    subscript_some n "klient_id" vkl h2, attrGet_error _ "marka" h]

theorem formatujNaprawe_keyError_status (n : Row) (vid vkl : Val) (fs : Row)
    (h1 : dictGet n "id" = some vid) (h2 : dictGet n "klient_id" = some vkl)
    (hm : maszynaDaneOf n = Val.obj fs) (h : dictGet n "status" = none) :
    formatujNaprawe n = .error (PyErr.keyError "status") := by
  simp [formatujNaprawe, subscript_some n "id" vid h1,
    subscript_some n "klient_id" vkl h2, hm, attrGet,
    subscript_error n "status" h]

theorem formatujNaprawe_keyError_data (n : Row) (vid vkl vst : Val) (fs : Row)
    (h1 : dictGet n "id" = some vid) (h2 : dictGet n "klient_id" = some vkl)
    (hm : maszynaDaneOf n = Val.obj fs) (h3 : dictGet n "status" = some vst)
    (h : dictGet n "data_przyjecia" = none) :
    formatujNaprawe n = .error (PyErr.keyError "data_przyjecia") := by
  simp [formatujNaprawe, subscript_some n "id" vid h1,
    subscript_some n "klient_id" vkl h2, hm, attrGet,
    subscript_some n "status" vst h3, subscript_error n "data_przyjecia" h]

theorem formatujNaprawe_ok (n : Row) (vid vkl vst vdp : Val) (fs : Row)
    (h1 : dictGet n "id" = some vid) (h2 : dictGet n "klient_id" = some vkl)
    (hm : maszynaDaneOf n = Val.obj fs) (h3 : dictGet n "status" = some vst)
    (h4 : dictGet n "data_przyjecia" = some vdp) :
    formatujNaprawe n = .ok
      [("id", vid), ("klient_id", vkl), ("marka", pyGet fs "marka"),
       ("klasa", pyGet fs "klasa"), ("ns", pyGet n "maszyna_ns"),
       ("status", vst), ("data_przyjecia", vdp),
       ("data_zakonczenia", pyGet n "data_zakonczenia"),
       ("opis_usterki", pyGet n "opis_usterki"),
       ("opis_naprawy", pyGet n "opis_naprawy"),
       ("rozliczone", pyGetD n "rozliczone" (Val.bool false))] := by
  simp [formatujNaprawe, subscript_some n "id" vid h1,
    subscript_some n "klient_id" vkl h2, hm, attrGet,
    subscript_some n "status" vst h3, subscript_some n "data_przyjecia" vdp h4]

theorem formatujNaprawe_ok_inv (n out : Row) (h : formatujNaprawe n = .ok out) :
    ∃ vid vkl vst vdp : Val, ∃ fs : Row,
      dictGet n "id" = some vid ∧ dictGet n "klient_id" = some vkl ∧
      maszynaDaneOf n = Val.obj fs ∧ dictGet n "status" = some vst ∧
      dictGet n "data_przyjecia" = some vdp ∧
      out = [("id", vid), ("klient_id", vkl), ("marka", pyGet fs "marka"),
             ("klasa", pyGet fs "klasa"), ("ns", pyGet n "maszyna_ns"),
             ("status", vst), ("data_przyjecia", vdp),
             ("data_zakonczenia", pyGet n "data_zakonczenia"),
             ("opis_usterki", pyGet n "opis_usterki"),
             ("opis_naprawy", pyGet n "opis_naprawy"),
             ("rozliczone", pyGetD n "rozliczone" (Val.bool false))] := by
  simp only [formatujNaprawe] at h
  cases hid : subscript n "id" with
  | error e => rw [hid] at h; cases h
  | ok vid =>
  rw [hid] at h
  cases hkl : subscript n "klient_id" with
  | error e => rw [hkl] at h; cases h
  | ok vkl =>
  rw [hkl] at h
  cases hma : attrGet (maszynaDaneOf n) "marka" with
  | error e => rw [hma] at h; cases h
  | ok vma =>
  rw [hma] at h
  cases hka : attrGet (maszynaDaneOf n) "klasa" with
  | error e => rw [hka] at h; cases h
  | ok vka =>
  rw [hka] at h
  cases hst : subscript n "status" with
  | error e => rw [hst] at h; cases h
  | ok vst =>
  rw [hst] at h
  cases hdp : subscript n "data_przyjecia" with
  | error e => rw [hdp] at h; cases h
  | ok vdp =>
  rw [hdp] at h
  cases h
  rcases attrGet_ok_inv _ _ _ hma with ⟨fs, hfs, hvma⟩
  rcases attrGet_ok_inv _ _ _ hka with ⟨fs2, hfs2, hvka⟩
  have hfseq : fs2 = fs := Val.obj.inj (hfs2.symm.trans hfs)
  rw [hfseq] at hvka
  subst hvma
  subst hvka
  exact ⟨vid, vkl, vst, vdp, fs, subscript_ok_inv _ _ _ hid,
    subscript_ok_inv _ _ _ hkl, hfs, subscript_ok_inv _ _ _ hst,
    subscript_ok_inv _ _ _ hdp, rfl⟩

theorem selectEq_head_key (tbl : List Row) (col : String) (v : Val) (lim : Nat)
    (e : Row) (rest : List Row)
    (h : selectEqLimit tbl [col] col v lim = e :: rest) :
    dictGet e col = some v := by
  unfold selectEqLimit at h
  cases hf : tbl.filter (fun r => pyGet r col == v) with
  | nil => rw [hf] at h; simp at h
  | cons r l2 =>
    rw [hf] at h
    cases lim with
    | zero => simp at h
    | succ m =>
      rw [List.map_cons, List.take_succ_cons] at h
      have he : e = projectCols [col] r := (List.cons.inj h).1.symm
      have hmem : r ∈ tbl.filter (fun r => pyGet r col == v) := by
        rw [hf]; exact List.mem_cons_self r l2
      have hv : pyGet r col = v := by
        have := (List.mem_filter.mp hmem).2
        simpa using this
      rw [he]
      simp [projectCols, dictGet_cons, hv]

/-!
## The claims
-/

/-- Concrete store for claim C1: one machine branded "Other" and one repair
referencing it. -/
def c1Maszyny : List Row :=
  [[("ns", Val.str "S1"), ("klasa", Val.str "Tokarka"), ("marka", Val.str "Other")]]

def c1Naprawy : List Row :=
  [[("id", Val.int 1), ("klient_id", Val.str "K"), ("maszyna_ns", Val.str "S1"),
    ("status", Val.str "otwarta"), ("data_przyjecia", Val.str "2024-01-01")]]

/-- The formatted row `get_naprawy` produces for the C1 store. -/
def c1Formatted : Row :=
  [("id", Val.int 1), ("klient_id", Val.str "K"), ("marka", Val.str "Other"),
   ("klasa", Val.str "Tokarka"), ("ns", Val.str "S1"), ("status", Val.str "otwarta"),
   ("data_przyjecia", Val.str "2024-01-01"), ("data_zakonczenia", Val.null),
   ("opis_usterki", Val.null), ("opis_naprawy", Val.null),
   ("rozliczone", Val.bool false)]

/-- Claim C1, counterexample: a GET /naprawy request carrying the brand
filter value "Acme" still returns the repair whose joined machine brand is
"Other", which does not case-insensitively contain "Acme" — the handler
applies no brand predicate at all. -/
theorem C1_counterexample :
    getNaprawy [("marka", "Acme")] c1Naprawy c1Maszyny =
      HttpResp.mk 200 (Val.list [Val.obj c1Formatted]) ∧
    dictGet c1Formatted "marka" = some (Val.str "Other") ∧
    ¬ containsCI "Other" "Acme" :=
  ⟨by decide, by decide, by decide⟩

/-- Claim C1, amended: GET /naprawy ignores the query string entirely — the
response is identical for every set of filter parameters (so no predicate,
exact or substring, is ever applied for any parameter, absent or present),
and on success the body lists every repair of the store exactly once: the
full unfiltered table, formatted. -/
theorem C1_theorem (args args2 : List (String × String)) (naprawy maszyny : List Row)
    (wynik : List Row)
    (h : formatList ((orderDescId naprawy).map (naprawaJoinRow maszyny)) = .ok wynik) :
    getNaprawy args naprawy maszyny = getNaprawy args2 naprawy maszyny ∧
    getNaprawy args naprawy maszyny = HttpResp.mk 200 (Val.list (wynik.map Val.obj)) ∧
    wynik.length = naprawy.length := by
  refine ⟨rfl, ?_, ?_⟩
  · simp only [getNaprawy, h]
  · rw [formatList_ok_length _ _ h, List.length_map]
    exact (sortLe_perm _ naprawy).length_eq

/-- Claim C1, witness: the amended theorem applied to the concrete C1 store,
with a brand-filter request and a filterless request. -/
theorem C1_witness :
    getNaprawy [("marka", "Acme")] c1Naprawy c1Maszyny =
      getNaprawy [] c1Naprawy c1Maszyny ∧
    getNaprawy [("marka", "Acme")] c1Naprawy c1Maszyny =
      HttpResp.mk 200 (Val.list ([c1Formatted].map Val.obj)) :=
  ⟨(C1_theorem [("marka", "Acme")] [] c1Naprawy c1Maszyny [c1Formatted] (by decide)).1,
   (C1_theorem [("marka", "Acme")] [] c1Naprawy c1Maszyny [c1Formatted] (by decide)).2.1⟩

/-- A raw row for claim C2 carrying pre-flattened alias columns (`marka`,
`klasa` at top level, no nested `maszyny` object). -/
def c2Row : Row :=
  [("id", Val.int 7), ("klient_id", Val.str "K"), ("status", Val.str "open"),
   ("data_przyjecia", Val.str "2024-01-02"), ("marka", Val.str "Acme"),
   ("klasa", Val.str "Frezarka")]

/-- What `_formatuj_naprawe` returns for `c2Row`. -/
def c2Out : Row :=
  [("id", Val.int 7), ("klient_id", Val.str "K"), ("marka", Val.null),
   ("klasa", Val.null), ("ns", Val.null), ("status", Val.str "open"),
   ("data_przyjecia", Val.str "2024-01-02"), ("data_zakonczenia", Val.null),
   ("opis_usterki", Val.null), ("opis_naprawy", Val.null),
   ("rozliczone", Val.bool false)]

/-- Claim C2, counterexample: the normalizer output carries no
`posrednik_id` (intermediary id) field at all, and a pre-flattened alias
row is not handled losslessly — its top-level brand "Acme" is dropped and
the output brand is null. -/
theorem C2_counterexample :
    formatujNaprawe c2Row = Except.ok c2Out ∧
    dictGet c2Out "posrednik_id" = none ∧
    dictGet c2Row "marka" = some (Val.str "Acme") ∧
    dictGet c2Out "marka" = some Val.null :=
  ⟨by decide, by decide, by decide, by decide⟩

/-- Claim C2, amended: for every raw row the normalizer accepts, the output
is a mapping with exactly eleven fields — id, client reference, brand,
class, machine serial, status, intake date, completion date, fault
description, repair description, billed flag — and no intermediary id.
Nested machine data (object or non-empty list, unwrapped one level)
supplies brand and class; every missing optional value defaults to null and
the billed flag to false; required fields are passed through.  Pre-flattened
top-level alias columns are not read: when the row has no nested `maszyny`
key, brand and class are null regardless of any top-level values. -/
theorem C2_theorem (n out : Row) (h : formatujNaprawe n = .ok out) :
    out.map Prod.fst = ["id", "klient_id", "marka", "klasa", "ns", "status",
      "data_przyjecia", "data_zakonczenia", "opis_usterki", "opis_naprawy",
      "rozliczone"] ∧
    dictGet out "id" = dictGet n "id" ∧
    dictGet out "klient_id" = dictGet n "klient_id" ∧
    dictGet out "status" = dictGet n "status" ∧
    dictGet out "data_przyjecia" = dictGet n "data_przyjecia" ∧
    (∀ fs, maszynaDaneOf n = Val.obj fs →
      dictGet out "marka" = some (pyGet fs "marka") ∧
      dictGet out "klasa" = some (pyGet fs "klasa")) ∧
    dictGet out "ns" = some (pyGet n "maszyna_ns") ∧
    dictGet out "data_zakonczenia" = some (pyGet n "data_zakonczenia") ∧
    dictGet out "opis_usterki" = some (pyGet n "opis_usterki") ∧
    dictGet out "opis_naprawy" = some (pyGet n "opis_naprawy") ∧
    dictGet out "rozliczone" = some (pyGetD n "rozliczone" (Val.bool false)) ∧
    (dictGet n "maszyny" = none →
      dictGet out "marka" = some Val.null ∧ dictGet out "klasa" = some Val.null) := by
  rcases formatujNaprawe_ok_inv n out h with
    ⟨vid, vkl, vst, vdp, fs, hid, hkl, hm, hst, hdp, hout⟩
  subst hout
  refine ⟨rfl, ?_, ?_, ?_, ?_, ?_, rfl, rfl, rfl, rfl, rfl, ?_⟩
  · rw [hid]; rfl
  · rw [hkl]; rfl
  · rw [hst]; rfl
  · rw [hdp]; rfl
  · intro fs2 hfs2
    have : fs2 = fs := Val.obj.inj (hfs2.symm.trans hm)
    rw [this]
    exact ⟨rfl, rfl⟩
  · intro hnone
    have hobj : maszynaDaneOf n = Val.obj [] := by
      simp [maszynaDaneOf, pyGetD, hnone, unwrapMaszyny]
    have : fs = [] := Val.obj.inj (hm.symm.trans hobj)
    rw [this]
    exact ⟨rfl, rfl⟩

/-- Claim C2, witness: the amended theorem at a concrete row with a nested
machine object and omitted optional fields. -/
theorem C2_witness :
    dictGet
      ((formatujNaprawe
        [("id", Val.int 3), ("klient_id", Val.str "ACME"),
         ("maszyna_ns", Val.str "SN-1"), ("status", Val.str "open"),
         ("data_przyjecia", Val.str "2024-01-01"),
         ("maszyny", Val.obj [("ns", Val.str "SN-1"), ("klasa", Val.str "Lathe"),
           ("marka", Val.str "Acme")])]).toOption.getD [])
      "rozliczone" = some (Val.bool false) := by
  have h := C2_theorem
    [("id", Val.int 3), ("klient_id", Val.str "ACME"),
     ("maszyna_ns", Val.str "SN-1"), ("status", Val.str "open"),
     ("data_przyjecia", Val.str "2024-01-01"),
     ("maszyny", Val.obj [("ns", Val.str "SN-1"), ("klasa", Val.str "Lathe"),
       ("marka", Val.str "Acme")])]
    [("id", Val.int 3), ("klient_id", Val.str "ACME"), ("marka", Val.str "Acme"),
     ("klasa", Val.str "Lathe"), ("ns", Val.str "SN-1"), ("status", Val.str "open"),
     ("data_przyjecia", Val.str "2024-01-01"), ("data_zakonczenia", Val.null),
     ("opis_usterki", Val.null), ("opis_naprawy", Val.null),
     ("rozliczone", Val.bool false)] (by decide)
  exact (by decide : (formatujNaprawe
    [("id", Val.int 3), ("klient_id", Val.str "ACME"),
     ("maszyna_ns", Val.str "SN-1"), ("status", Val.str "open"),
     ("data_przyjecia", Val.str "2024-01-01"),
     ("maszyny", Val.obj [("ns", Val.str "SN-1"), ("klasa", Val.str "Lathe"),
       ("marka", Val.str "Acme")])]).toOption.getD [] =
    [("id", Val.int 3), ("klient_id", Val.str "ACME"), ("marka", Val.str "Acme"),
     ("klasa", Val.str "Lathe"), ("ns", Val.str "SN-1"), ("status", Val.str "open"),
     ("data_przyjecia", Val.str "2024-01-01"), ("data_zakonczenia", Val.null),
     ("opis_usterki", Val.null), ("opis_naprawy", Val.null),
     ("rozliczone", Val.bool false)]) ▸ h.2.2.2.2.2.2.2.2.2.2.1

theorem isObjVal_eq_true_iff (v : Val) : isObjVal v = true ↔ ∃ fs, v = Val.obj fs := by
  cases v <;> simp [isObjVal]

/-- Row for claim C10: lacks `data_przyjecia` while `maszyny` holds null. -/
def c10Row : Row :=
  [("id", Val.int 1), ("klient_id", Val.str "K"), ("status", Val.str "s"),
   ("maszyny", Val.null)]

/-- Row for claim C10 whose `maszyny` list is not a list of mappings. -/
def c10ListRow : Row :=
  [("id", Val.int 1), ("klient_id", Val.str "K"), ("status", Val.str "s"),
   ("data_przyjecia", Val.str "d"),
   ("maszyny", Val.list [Val.obj [("marka", Val.str "B")], Val.int 5])]

/-- Claim C10, counterexample: `c10Row` lacks `data_przyjecia`, so by the
claim the normalizer should raise KeyError — it raises AttributeError (the
brand access on the null machine data is evaluated first).  And
`c10ListRow` holds a non-empty `maszyny` list that is not a list of
mappings (its second element is an int), yet the normalizer returns
normally, contradicting the claimed "only when" condition. -/
theorem C10_counterexample :
    formatujNaprawe c10Row = Except.error PyErr.attributeError ∧
    dictGet c10Row "data_przyjecia" = none ∧
    (formatujNaprawe c10ListRow).isOk = true :=
  ⟨by decide, by decide, by decide⟩

/-- Claim C10, amended: the normalizer is partial, precisely as follows.
It succeeds iff id, klient_id, status and data_przyjecia are all present
and the once-unwrapped machine data is a mapping (the unwrap takes the
first element of a non-empty list, so only that first element need be a
mapping).  It raises AttributeError iff id and klient_id are present and
the unwrapped machine data is not a mapping — this takes precedence over a
missing status or data_przyjecia.  Any KeyError it raises names one of the
four required keys, and that key is indeed absent from the row. -/
theorem C10_theorem (n : Row) :
    ((formatujNaprawe n).isOk = true ↔
      ((dictGet n "id").isSome = true ∧ (dictGet n "klient_id").isSome = true ∧
       (dictGet n "status").isSome = true ∧
       (dictGet n "data_przyjecia").isSome = true ∧
       isObjVal (maszynaDaneOf n) = true)) ∧
    (formatujNaprawe n = .error PyErr.attributeError ↔
      ((dictGet n "id").isSome = true ∧ (dictGet n "klient_id").isSome = true ∧
       isObjVal (maszynaDaneOf n) = false)) ∧
    (∀ k, formatujNaprawe n = .error (PyErr.keyError k) →
      dictGet n k = none ∧
      (k = "id" ∨ k = "klient_id" ∨ k = "status" ∨ k = "data_przyjecia")) := by
  cases hid : dictGet n "id" with
  | none =>
    rw [formatujNaprawe_keyError_id n hid]
    refine ⟨by simp [Except.isOk, Except.toBool, hid], by simp [hid], ?_⟩
    intro k hk
    simp only [Except.error.injEq, PyErr.keyError.injEq] at hk
    subst hk
    exact ⟨hid, Or.inl rfl⟩
  | some vid =>
  cases hkl : dictGet n "klient_id" with
  | none =>
    rw [formatujNaprawe_keyError_klient n vid hid hkl]
    refine ⟨by simp [Except.isOk, Except.toBool, hid, hkl], by simp [hid, hkl], ?_⟩
    intro k hk
    simp only [Except.error.injEq, PyErr.keyError.injEq] at hk
    subst hk
    exact ⟨hkl, Or.inr (Or.inl rfl)⟩
  | some vkl =>
  cases hobj : isObjVal (maszynaDaneOf n) with
  | false =>
    rw [formatujNaprawe_attrError n vid vkl hid hkl hobj]
    refine ⟨by simp [Except.isOk, Except.toBool, hobj], by simp [hid, hkl, hobj], ?_⟩
    intro k hk
    simp at hk
  | true =>
  rcases (isObjVal_eq_true_iff _).mp hobj with ⟨fs, hm⟩
  cases hst : dictGet n "status" with
  | none =>
    rw [formatujNaprawe_keyError_status n vid vkl fs hid hkl hm hst]
    refine ⟨by simp [Except.isOk, Except.toBool, hst], by simp [hobj], ?_⟩
    intro k hk
    simp only [Except.error.injEq, PyErr.keyError.injEq] at hk
    subst hk
    exact ⟨hst, Or.inr (Or.inr (Or.inl rfl))⟩
  | some vst =>
  cases hdp : dictGet n "data_przyjecia" with
  | none =>
    rw [formatujNaprawe_keyError_data n vid vkl vst fs hid hkl hm hst hdp]
    refine ⟨by simp [Except.isOk, Except.toBool, hdp], by simp [hobj], ?_⟩
    intro k hk
    simp only [Except.error.injEq, PyErr.keyError.injEq] at hk
    subst hk
    exact ⟨hdp, Or.inr (Or.inr (Or.inr rfl))⟩
  | some vdp =>
  rw [formatujNaprawe_ok n vid vkl vst vdp fs hid hkl hm hst hdp]
  refine ⟨by simp [Except.isOk, Except.toBool, hid, hkl, hst, hdp, hobj], by simp [hobj], ?_⟩
  intro k hk
  simp at hk

/-- Claim C10, witness: by the amended theorem, a row with all four keys and
a machine object succeeds, and removing `klient_id` from it yields a
KeyError naming an absent required key. -/
theorem C10_witness :
    (formatujNaprawe [("id", Val.int 2), ("klient_id", Val.str "K"),
      ("status", Val.str "s"), ("data_przyjecia", Val.str "d"),
      ("maszyny", Val.obj [("marka", Val.str "B")])]).isOk = true :=
  (C10_theorem [("id", Val.int 2), ("klient_id", Val.str "K"),
    ("status", Val.str "s"), ("data_przyjecia", Val.str "d"),
    ("maszyny", Val.obj [("marka", Val.str "B")])]).1.mpr
    ⟨by decide, by decide, by decide, by decide, by decide⟩

/-- Claim C3, counterexample: when the store raises a uniqueness violation
during the insert of a find-or-create request, both handlers answer with a
generic 500 server error, not with a 409 conflict. -/
theorem C3_counterexample :
    dodajLubPobierzKlienta [("nazwa", Val.str "ACME")] []
        (fun _ => Except.error (StoreErr.uniqueViolation
          "duplicate key value violates unique constraint")) =
      errResp 500 "Błąd serwera: duplicate key value violates unique constraint" ∧
    dodajLubPobierzMaszyne [("ns", Val.str "SN-1"), ("marka", Val.str "Acme")] []
        (fun _ _ => Except.ok [])
        (fun _ => Except.error (StoreErr.uniqueViolation
          "duplicate key value violates unique constraint")) =
      errResp 500 "Błąd serwera: duplicate key value violates unique constraint" ∧
    (errResp 500 "Błąd serwera: duplicate key value violates unique constraint").status
      ≠ 409 :=
  ⟨by decide, by decide, by decide⟩

/-- Claim C3, amended: neither find-or-create handler ever answers 409; a
store-raised natural-key uniqueness violation on the insert reaches the
blanket exception handler and is answered with a 500 response whose body
carries a generic server-error message around the store text. -/
theorem C3_theorem (data : Row) (klienci maszyny : List Row)
    (insK : Row → Except StoreErr (List Row))
    (updM : Row → Val → Except StoreErr (List Row))
    (insM : Row → Except StoreErr (List Row)) :
    (dodajLubPobierzKlienta data klienci insK).status ≠ 409 ∧
    (dodajLubPobierzMaszyne data maszyny updM insM).status ≠ 409 ∧
    (∀ m, klienciLookup data klienci = some [] →
      (truthy (pyGet data "nazwa") || truthy (pyGet data "logo")) = true →
      insK (klientInsertData data) = .error (StoreErr.uniqueViolation m) →
      dodajLubPobierzKlienta data klienci insK =
        errResp 500 ("Błąd serwera: " ++ m)) ∧
    (∀ m, truthy (pyGet data "ns") = true →
      selectEqLimit maszyny ["ns"] "ns" (pyGet data "ns") 1 = [] →
      insM (maszynaPayload data) = .error (StoreErr.uniqueViolation m) →
      dodajLubPobierzMaszyne data maszyny updM insM =
        errResp 500 ("Błąd serwera: " ++ m)) := by
  refine ⟨?_, ?_, ?_, ?_⟩
  · unfold dodajLubPobierzKlienta
    repeat' split
    all_goals simp [errResp, ok200]
  · simp only [dodajLubPobierzMaszyne]
    repeat' split
    all_goals simp [errResp, ok200]
  · intro m hlook htr hins
    simp [dodajLubPobierzKlienta, hlook, htr, hins, StoreErr.msg]
  · intro m htr hsel hins
    simp [dodajLubPobierzMaszyne, htr, hsel, hins, StoreErr.msg]

/-- Claim C3, witness: the amended theorem at a concrete request whose
insert hits a uniqueness violation. -/
theorem C3_witness :
    dodajLubPobierzKlienta [("nazwa", Val.str "X")] []
      (fun _ => Except.error (StoreErr.uniqueViolation "duplicate key")) =
      errResp 500 "Błąd serwera: duplicate key" :=
  (C3_theorem [("nazwa", Val.str "X")] [] []
    (fun _ => Except.error (StoreErr.uniqueViolation "duplicate key"))
    (fun _ _ => Except.ok []) (fun _ => Except.ok [])).2.2.1 "duplicate key"
    (by decide) (by decide) rfl

/-- Claim C4: POST /naprawy validates the four required fields first — when
one is missing or empty the same 400 response results for every store
oracle, so no insert is issued; otherwise one row is inserted carrying the
required fields at their payload values, every optional field at its
supplied value (null when omitted) and the billed flag defaulted to false,
and the response body carries the id of the store-returned inserted row. -/
theorem C4_theorem (dane : Row) (ins : Row → Except StoreErr (List Row)) :
    (wymaganePola.all (fun p => truthy (pyGet dane p)) = false →
      ∀ ins2 : Row → Except StoreErr (List Row),
        dodajNaprawe dane ins2 =
          errResp 400
            "Brak wymaganych danych: klient_id, maszyna_ns, data_przyjecia, status") ∧
    (wymaganePola.all (fun p => truthy (pyGet dane p)) = true →
      (∀ r rest, ins (naprawaInsertData dane) = .ok (r :: rest) →
        dodajNaprawe dane ins = ok200 [("sukces", Val.bool true), ("id", pyGet r "id")]) ∧
      (naprawaInsertData dane).map Prod.fst =
        ["klient_id", "maszyna_ns", "data_przyjecia", "data_zakonczenia", "status",
         "opis_usterki", "opis_naprawy", "posrednik_id", "rozliczone"] ∧
      (∀ k, k ∈ wymaganePola → dictGet (naprawaInsertData dane) k = some (pyGet dane k)) ∧
      (∀ k, k ∈ ["data_zakonczenia", "opis_usterki", "opis_naprawy", "posrednik_id"] →
        dictGet (naprawaInsertData dane) k = some (pyGet dane k)) ∧
      dictGet (naprawaInsertData dane) "rozliczone" =
        some (pyGetD dane "rozliczone" (Val.bool false))) := by
  constructor
  · intro hv ins2
    simp [dodajNaprawe, hv]
  · intro hv
    refine ⟨?_, rfl, ?_, ?_, rfl⟩
    · intro r rest hins
      simp [dodajNaprawe, hv, hins, ok200]
    · intro k hk
      simp only [wymaganePola, List.mem_cons, List.not_mem_nil, or_false] at hk
      rcases hk with rfl | rfl | rfl | rfl <;> rfl
    · intro k hk
      simp only [List.mem_cons, List.not_mem_nil, or_false] at hk
      rcases hk with rfl | rfl | rfl | rfl <;> rfl

/-- Claim C4, witness: a valid create at a concrete payload and store. -/
theorem C4_witness :
    dodajNaprawe
      [("klient_id", Val.str "ACME"), ("maszyna_ns", Val.str "SN-1"),
       ("data_przyjecia", Val.str "2024-01-01"), ("status", Val.str "open")]
      (fun _ => Except.ok [[("id", Val.int 17)]]) =
      ok200 [("sukces", Val.bool true), ("id", Val.int 17)] :=
  ((C4_theorem
      [("klient_id", Val.str "ACME"), ("maszyna_ns", Val.str "SN-1"),
       ("data_przyjecia", Val.str "2024-01-01"), ("status", Val.str "open")]
      (fun _ => Except.ok [[("id", Val.int 17)]])).2 (by decide)).1
    [("id", Val.int 17)] [] rfl

/-- Claim C5: PUT /naprawy/id builds the update set from recognized field
names only — every copied entry is a recognized key with its payload
value; a payload whose recognized-field intersection is empty (an empty
body included) gets the same 400 for every store oracle, so no store call
is made; unknown fields are ignored: dropping them from the payload leaves
the update set unchanged. -/
theorem C5_theorem (naprawaId : Int) (data : Row) :
    (∀ k v, (k, v) ∈ polaDoAktualizacji data →
      k ∈ uznanePolaNaprawy ∧ dictGet data k = some v) ∧
    (polaDoAktualizacji data = [] →
      ∀ upd : Row → Int → Except StoreErr (List Row),
        updateNaprawa naprawaId data upd = errResp 400 "Brak danych do aktualizacji") ∧
    ((∀ k, k ∈ uznanePolaNaprawy → dictGet data k = none) →
      polaDoAktualizacji data = []) ∧
    polaDoAktualizacji (data.filter (fun p => uznanePolaNaprawy.contains p.1)) =
      polaDoAktualizacji data := by
  refine ⟨?_, ?_, ?_, ?_⟩
  · intro k v hkv
    unfold polaDoAktualizacji at hkv
    rcases List.mem_filterMap.mp hkv with ⟨a, ha, hfa⟩
    rcases Option.map_eq_some'.mp hfa with ⟨w, hw, hfw⟩
    obtain ⟨h1, h2⟩ := Prod.mk.inj hfw
    subst h1
    subst h2
    exact ⟨ha, hw⟩
  · intro hempty upd
    simp [updateNaprawa, hempty]
  · intro hall
    unfold polaDoAktualizacji
    refine List.filterMap_eq_nil.mpr ?_
    intro a ha
    rw [hall a ha]
    rfl
  · unfold polaDoAktualizacji
    refine List.filterMap_congr ?_
    intro k hk
    rw [dictGet_filter data (fun p => uznanePolaNaprawy.contains p.1) k
      (fun v => by simpa using hk)]

/-- Claim C5, witness: a payload mixing one recognized field with an
unknown one updates exactly the recognized field; an empty payload is
rejected with 400. -/
theorem C5_witness :
    polaDoAktualizacji
        (([("status", Val.str "done"), ("nieznane", Val.int 1)] : Row).filter
          (fun p => uznanePolaNaprawy.contains p.1)) =
      polaDoAktualizacji [("status", Val.str "done"), ("nieznane", Val.int 1)] ∧
    updateNaprawa 5 [] (fun _ _ => Except.ok []) =
      errResp 400 "Brak danych do aktualizacji" :=
  ⟨(C5_theorem 5 [("status", Val.str "done"), ("nieznane", Val.int 1)]).2.2.2,
   (C5_theorem 5 []).2.1 rfl (fun _ _ => Except.ok [])⟩

/-- Claim C6: a payload holding only the billed flag yields the update set
containing exactly that one field; applying it to a stored row sets
`rozliczone` to the supplied value and preserves the binding of every other
key, and the table-level update rewrites only the row whose id matches. -/
theorem C6_theorem (v : Val) (naprawa : Row) (naprawaId : Int) (k : String)
    (hk : k ≠ "rozliczone") :
    polaDoAktualizacji [("rozliczone", v)] = [("rozliczone", v)] ∧
    dictGet (setFields naprawa (polaDoAktualizacji [("rozliczone", v)])) "rozliczone"
      = some v ∧
    dictGet (setFields naprawa (polaDoAktualizacji [("rozliczone", v)])) k
      = dictGet naprawa k ∧
    ((pyGet naprawa "id" == Val.int naprawaId) = false →
      updateTableById [naprawa] (polaDoAktualizacji [("rozliczone", v)]) naprawaId
        = [naprawa]) ∧
    ((pyGet naprawa "id" == Val.int naprawaId) = true →
      updateTableById [naprawa] (polaDoAktualizacji [("rozliczone", v)]) naprawaId
        = [setFields naprawa (polaDoAktualizacji [("rozliczone", v)])]) := by
  refine ⟨rfl, ?_, ?_, ?_, ?_⟩
  · exact dictGet_setField_same naprawa "rozliczone" v
  · exact dictGet_setField_other naprawa "rozliczone" k v hk
  · intro h
    have hne : ¬ (pyGet naprawa "id" = Val.int naprawaId) := by simpa using h
    simp [updateTableById, hne]
  · intro h
    have he : pyGet naprawa "id" = Val.int naprawaId := by simpa using h
    simp [updateTableById, he]

/-- Claim C6, witness: the frame property at a concrete repair row. -/
theorem C6_witness :
    dictGet (setFields [("id", Val.int 1), ("status", Val.str "open"),
        ("rozliczone", Val.bool false)]
      (polaDoAktualizacji [("rozliczone", Val.bool true)])) "status"
      = some (Val.str "open") ∧
    dictGet (setFields [("id", Val.int 1), ("status", Val.str "open"),
        ("rozliczone", Val.bool false)]
      (polaDoAktualizacji [("rozliczone", Val.bool true)])) "rozliczone"
      = some (Val.bool true) :=
  ⟨(C6_theorem (Val.bool true) [("id", Val.int 1), ("status", Val.str "open"),
      ("rozliczone", Val.bool false)] 1 "status" (by decide)).2.2.1,
   (C6_theorem (Val.bool true) [("id", Val.int 1), ("status", Val.str "open"),
      ("rozliczone", Val.bool false)] 1 "status" (by decide)).2.1⟩

/-- Claim C7: deleting an id that matches no stored row yields an empty
deleted-rows result and the handler answers 404, never 200; more generally
a create, update or delete whose store result carries zero rows is answered
with an error status (500, 404 and 404 respectively), never 200. -/
theorem C7_theorem (naprawaId : Int) (naprawy : List Row) (dane data : Row)
    (del1 : Int → Except StoreErr (List Row))
    (ins : Row → Except StoreErr (List Row))
    (upd : Row → Int → Except StoreErr (List Row)) :
    ((∀ r ∈ naprawy, pyGet r "id" ≠ Val.int naprawaId) →
      deleteFromNaprawy naprawy naprawaId = []) ∧
    (del1 naprawaId = .ok [] →
      deleteNaprawa naprawaId del1 = errResp 404 "Nie znaleziono naprawy" ∧
      (deleteNaprawa naprawaId del1).status ≠ 200) ∧
    (ins (naprawaInsertData dane) = .ok [] → (dodajNaprawe dane ins).status ≠ 200) ∧
    (upd (polaDoAktualizacji data) naprawaId = .ok [] →
      (updateNaprawa naprawaId data upd).status ≠ 200) := by
  refine ⟨?_, ?_, ?_, ?_⟩
  · intro h
    refine List.filter_eq_nil.mpr ?_
    intro r hr
    simp [h r hr]
  · intro h
    refine ⟨by simp [deleteNaprawa, h], by simp [deleteNaprawa, h, errResp]⟩
  · intro h
    cases hv : wymaganePola.all (fun p => truthy (pyGet dane p)) with
    | false => simp [dodajNaprawe, hv, errResp]
    | true => simp [dodajNaprawe, hv, h, errResp]
  · intro h
    cases hp : (polaDoAktualizacji data).isEmpty with
    | true => simp [updateNaprawa, hp, errResp]
    | false => simp [updateNaprawa, hp, h, errResp]

/-- Claim C7, witness: a delete on an id absent from a concrete store
answers 404. -/
theorem C7_witness :
    deleteFromNaprawy [[("id", Val.int 1)]] 2 = [] ∧
    deleteNaprawa 2 (fun _ => Except.ok []) =
      errResp 404 "Nie znaleziono naprawy" :=
  ⟨(C7_theorem 2 [[("id", Val.int 1)]] [] [] (fun _ => Except.ok [])
      (fun _ => Except.ok []) (fun _ _ => Except.ok [])).1 (by decide),
   ((C7_theorem 2 [[("id", Val.int 1)]] [] [] (fun _ => Except.ok [])
      (fun _ => Except.ok []) (fun _ _ => Except.ok [])).2.1 rfl).1⟩

/-- Store for claim C8: two machine rows sharing the serial "A". -/
def c8Maszyny : List Row :=
  [[("ns", Val.str "A"), ("marka", Val.str "M")],
   [("ns", Val.str "A"), ("marka", Val.str "M")]]

/-- Claim C8, counterexample: with two stored rows sharing a serial, the
`numery_seryjne` list of the response contains a duplicate — the handler
passes the `ns` column through without deduplication, unlike the four other
lists. -/
theorem C8_counterexample :
    getSlowniki c8Maszyny [] [] =
      ok200 [("marki", Val.list [Val.str "M"]), ("klasy", Val.list []),
             ("usterki", Val.list []), ("klienci_id", Val.list []),
             ("numery_seryjne", Val.list [Val.str "A", Val.str "A"])] ∧
    ¬ ([Val.str "A", Val.str "A"] : List Val).Nodup :=
  ⟨by decide, by decide⟩

/-- Claim C8, amended: the brands, classes, fault-description and client-id
lists are deduplicated for every store contents; the serial list is the raw
`ns` column passed through verbatim, hence duplicate-free exactly when the
stored column is (as the store's unique constraint on `ns` guarantees); the
response is assembled from precisely these five lists. -/
theorem C8_theorem (maszyny naprawy klienci : List Row)
    (hns : (maszyny.map (fun r => pyGet r "ns")).Nodup) :
    (slownikiMarki maszyny).Nodup ∧
    (slownikiKlasy maszyny).Nodup ∧
    (slownikiUsterki naprawy).Nodup ∧
    (slownikiKlienciId klienci).Nodup ∧
    (slownikiNumerySeryjne maszyny).Nodup ∧
    getSlowniki maszyny naprawy klienci =
      ok200 [("marki", Val.list (slownikiMarki maszyny)),
             ("klasy", Val.list (slownikiKlasy maszyny)),
             ("usterki", Val.list (slownikiUsterki naprawy)),
             ("klienci_id", Val.list ((slownikiKlienciId klienci).map Val.str)),
             ("numery_seryjne", Val.list (slownikiNumerySeryjne maszyny))] := by
  refine ⟨?_, ?_, ?_, ?_, hns, rfl⟩
  · exact (sortLe_perm valLe _).symm.nodup (List.nodup_dedup _)
  · exact (sortLe_perm valLe _).symm.nodup (List.nodup_dedup _)
  · exact (sortLe_perm valLe _).symm.nodup (List.nodup_dedup _)
  · exact (sortLe_perm strLe _).symm.nodup (List.nodup_dedup _)

/-- Claim C8, witness: the amended theorem at a concrete duplicate-free
store. -/
theorem C8_witness :
    (slownikiMarki [[("ns", Val.str "A"), ("marka", Val.str "M")]]).Nodup ∧
    (slownikiNumerySeryjne [[("ns", Val.str "A"), ("marka", Val.str "M")]]).Nodup :=
  ⟨(C8_theorem [[("ns", Val.str "A"), ("marka", Val.str "M")]] [] [] (by decide)).1,
   (C8_theorem [[("ns", Val.str "A"), ("marka", Val.str "M")]] [] []
      (by decide)).2.2.2.2.1⟩

/-- Claim C9: POST /maszyny always sends the store a payload holding all
four keys ns, marka, klasa, opis — an omitted field is sent as null, so
re-submitting a known serial without brand/class/description overwrites
those stored attributes with null — and on either success path (update of
an existing serial, or insert echoed by the store) the response body is
exactly the object with the single field ns = the submitted serial. -/
theorem C9_theorem (data : Row) (maszyny : List Row)
    (upd : Row → Val → Except StoreErr (List Row))
    (ins : Row → Except StoreErr (List Row)) :
    (maszynaPayload data).map Prod.fst = ["ns", "marka", "klasa", "opis"] ∧
    (∀ k, k ∈ ["ns", "marka", "klasa", "opis"] →
      dictGet (maszynaPayload data) k = some (pyGet data k)) ∧
    (∀ k, k ∈ ["ns", "marka", "klasa", "opis"] → dictGet data k = none →
      dictGet (maszynaPayload data) k = some Val.null) ∧
    (∀ e rest u us, truthy (pyGet data "ns") = true →
      selectEqLimit maszyny ["ns"] "ns" (pyGet data "ns") 1 = e :: rest →
      upd (maszynaPayload data) (pyGet data "ns") = .ok (u :: us) →
      dodajLubPobierzMaszyne data maszyny upd ins = ok200 [("ns", pyGet data "ns")]) ∧
    (∀ i irest, truthy (pyGet data "ns") = true →
      selectEqLimit maszyny ["ns"] "ns" (pyGet data "ns") 1 = [] →
      ins (maszynaPayload data) = .ok (i :: irest) →
      dictGet i "ns" = some (pyGet data "ns") →
      dodajLubPobierzMaszyne data maszyny upd ins = ok200 [("ns", pyGet data "ns")]) := by
  refine ⟨rfl, ?_, ?_, ?_, ?_⟩
  · intro k hk
    simp only [List.mem_cons, List.not_mem_nil, or_false] at hk
    rcases hk with rfl | rfl | rfl | rfl <;> rfl
  · intro k hk hnone
    simp only [List.mem_cons, List.not_mem_nil, or_false] at hk
    rcases hk with rfl | rfl | rfl | rfl <;>
      simp [maszynaPayload, dictGet_cons, pyGet, pyGetD, hnone]
  · intro e rest u us htr hsel hupd
    have hns : dictGet e "ns" = some (pyGet data "ns") :=
      selectEq_head_key maszyny "ns" (pyGet data "ns") 1 e rest hsel
    simp [dodajLubPobierzMaszyne, htr, hsel, hupd, hns, ok200]
  · intro i irest htr hsel hins hecho
    simp [dodajLubPobierzMaszyne, htr, hsel, hins, hecho, ok200]

/-- Claim C9, witness: re-submitting a known serial with the brand omitted
sends a payload whose brand is null, and the update path answers exactly
the serial object. -/
theorem C9_witness :
    dictGet (maszynaPayload [("ns", Val.str "SN-1")]) "marka" = some Val.null ∧
    dodajLubPobierzMaszyne [("ns", Val.str "SN-1")]
      [[("ns", Val.str "SN-1"), ("marka", Val.str "Old")]]
      (fun _ _ => Except.ok [[("ns", Val.str "SN-1")]])
      (fun _ => Except.ok []) =
      ok200 [("ns", Val.str "SN-1")] :=
  ⟨(C9_theorem [("ns", Val.str "SN-1")] [] (fun _ _ => Except.ok [])
      (fun _ => Except.ok [])).2.2.1 "marka" (by decide) (by decide),
   (C9_theorem [("ns", Val.str "SN-1")]
      [[("ns", Val.str "SN-1"), ("marka", Val.str "Old")]]
      (fun _ _ => Except.ok [[("ns", Val.str "SN-1")]])
      (fun _ => Except.ok [])).2.2.2.1
    [("ns", Val.str "SN-1")] [] [("ns", Val.str "SN-1")] []
    (by decide) (by decide) rfl⟩
